import Mathlib

/-!
Shallow embedding of the NexusSDK core (account-parallel task orchestrator,
retry/refresh state machine, and proxy-aware transport) and proofs about it.

Go conventions are embedded as follows:
* a Go `error` value is a `GoError` (its message string); a Go `(T, error)`
  pair where exactly one side is meaningful is an `Except GoError T`;
* a Go `[]byte` that may be `nil` is a `GoBytes := Option String`
  (`none` is the nil slice; `io.ReadAll` always yields a non-nil slice,
  hence `some`);
* network and serialization effects (`http.Client.Do`, `json.Marshal`,
  `io.ReadAll`) are oracle parameters: the embedding is a function of their
  outcomes, and the control flow around them is transcribed from the source.
-/

namespace NexusSDK

/-- A Go error, identified by its message (`errors.New` / `fmt.Errorf`). -/
abbrev GoError := String

/-- A Go `[]byte` slice that may be `nil`: `none` is the nil slice. -/
abbrev GoBytes := Option String

/-- `types.Proxy` from types/config.go: SOCKS proxy settings. -/
structure Proxy where
  Ip : String
  Port : Int
  Username : String
  Password : String
  SocksType : Int
  Timeout : Int
deriving DecidableEq, Repr

/-- `types.TelegramData` from types/config.go. -/
structure TelegramData where
  TdataStringSession : String
  AppId : String
  AppHash : String
  TelegramId : String
deriving DecidableEq, Repr

/-- `types.Account` from types/config.go. -/
structure Account where
  GameData : String
  Telegram : TelegramData
deriving DecidableEq, Repr

/-- `proxy.Auth` from golang.org/x/net/proxy: SOCKS5 credentials. -/
structure Auth where
  User : String
  Password : String
deriving DecidableEq, Repr

/-- A SOCKS5 dialer as produced by `proxy.SOCKS5`, recording the proxy
address and the optional credentials it was built with. -/
structure Dialer where
  address : String
  auth : Option Auth
deriving DecidableEq, Repr

/-- The transport of the constructed client: either the zero-value
`http.Transport` (direct dialing) or one whose `DialContext` goes through
the SOCKS5 dialer. -/
inductive TransportKind where
  | direct : TransportKind
  | proxied (dialer : Dialer) : TransportKind
deriving DecidableEq, Repr

/-- `httpclient.HTTPClient`: the wrapped `http.Client`, keeping the fields
the embedding needs (the transport it dials with and the timeout in
seconds). -/
structure HTTPClient where
  transport : TransportKind
  timeoutSeconds : Int
deriving DecidableEq, Repr

/-- Models `golang.org/x/net/proxy.SOCKS5` for the `"tcp"` network: it
builds the dialer from the address and optional auth and returns a nil
error (the library's tcp path cannot fail at construction time). -/
def SOCKS5 (address : String) (auth : Option Auth) : Except GoError Dialer :=
  .ok { address := address, auth := auth }

/-- `httpclient.NewHTTPClient` (client.go lines 109-151), transcribed
branch by branch: the proxy path is taken only when `Ip != ""` and
`Port > 0`; SOCKS type 5 builds a SOCKS5 dialer with credentials exactly
when username and password are both non-empty; type 4 and all other types
fail; the timeout defaults to 10 seconds unless `Timeout > 0`. -/
def NewHTTPClient (proxyConfig : Proxy) : Except GoError HTTPClient :=
  let timeout : Int := if proxyConfig.Timeout > 0 then proxyConfig.Timeout else 10
  if proxyConfig.Ip != "" && proxyConfig.Port > 0 then
    let proxyAddress := proxyConfig.Ip ++ ":" ++ toString proxyConfig.Port
    if proxyConfig.SocksType == 5 then
      let dialerRes :=
        if proxyConfig.Username != "" && proxyConfig.Password != "" then
          SOCKS5 proxyAddress
            (some { User := proxyConfig.Username, Password := proxyConfig.Password })
        else
          SOCKS5 proxyAddress none
      match dialerRes with
      | .error err => .error ("failed to create SOCKS dialer: " ++ err)
      | .ok dialer =>
        .ok { transport := .proxied dialer, timeoutSeconds := timeout }
    else if proxyConfig.SocksType == 4 then
      .error "SOCKS4 proxy is not supported in this implementation"
    else
      .error ("invalid SOCKS type: " ++ toString proxyConfig.SocksType)
  else
    .ok { transport := .direct, timeoutSeconds := timeout }

/-- An HTTP response as `DoRequest` sees it: the status code and the body
text that `io.ReadAll(resp.Body)` yields. -/
structure Response where
  StatusCode : Int
  Body : String
deriving DecidableEq, Repr

/-- The outcome of the round trip inside `DoRequest`, supplied as an
oracle: `http.NewRequest` may fail, `client.Do` may fail, or a response
arrives. -/
inductive NetOutcome where
  | requestError (e : GoError) : NetOutcome
  | transportError (e : GoError) : NetOutcome
  | response (resp : Response) : NetOutcome
deriving DecidableEq, Repr

/-- `HTTPClient.DoRequest` (client.go lines 156-179): request-build and
transport errors are surfaced directly; a response with status outside
[200, 300) is turned into an error whose message is the response body
text; any other response is returned as-is. The `method`, `url` and
`body` arguments mirror the Go signature (the oracle stands for the
round trip they would produce). -/
def DoRequest (method url : String) (body : GoBytes) (outcome : NetOutcome) :
    Except GoError Response :=
  match method, url, body, outcome with
  | _, _, _, .requestError e => .error e
  | _, _, _, .transportError e => .error e
  | _, _, _, .response resp =>
    if resp.StatusCode < 200 || resp.StatusCode >= 300 then
      .error resp.Body
    else
      .ok resp

/-- `HTTPClient.Get` (client.go line 192): a GET via `DoRequest` with nil
body. -/
def Get (url : String) (outcome : NetOutcome) : Except GoError Response :=
  DoRequest "GET" url none outcome

/-- `HTTPClient.Post` (client.go line 209): a POST via `DoRequest`. -/
def Post (url : String) (body : GoBytes) (outcome : NetOutcome) :
    Except GoError Response :=
  DoRequest "POST" url body outcome

/-- `handler.GameDataRequest`: the JSON body of the refresh call. -/
structure GameDataRequest where
  Game : String
  Telegram : TelegramData
  APIKey : String
  Proxy : Proxy
deriving DecidableEq, Repr

/-- The effect oracles `refreshGameData` runs against: `json.Marshal` of
the request body, `client.Post` at a url with a body, and
`io.ReadAll(resp.Body)`. -/
structure RefreshEnv where
  marshal : GameDataRequest → Except GoError String
  post : String → String → Except GoError Response
  readAll : Response → Except GoError String

/-- The hard-coded `nexusApiBaseURL` local of `refreshGameData`. -/
def nexusApiBaseURL : String := "http://34.95.182.203:1337/api"

/-- `handler.refreshGameData` (part_000 lines 20-49): builds the fixed url
from `nexusApiBaseURL`, marshals the `GameDataRequest`, POSTs it, reads
the response body. Every failure path returns the nil slice alongside the
error; the success path returns the (non-nil) body with a nil error. -/
def refreshGameData (env : RefreshEnv) (game apiKey : String)
    (telegram : TelegramData) (proxyConfig : Proxy) : GoBytes × Option GoError :=
  let url := nexusApiBaseURL ++ "/telegram/game-data"
  let requestBody : GameDataRequest :=
    { Game := game, Telegram := telegram, APIKey := apiKey, Proxy := proxyConfig }
  match env.marshal requestBody with
  | .error err => (none, some err)
  | .ok jsonData =>
    match env.post url jsonData with
    | .error err => (none, some err)
    | .ok resp =>
      match env.readAll resp with
      | .error err => (none, some err)
      | .ok body => (some body, none)

/-- `GameHandler.runTaskWithRetry` (part_000 lines 210-227), instrumented
with the number of `task.Run` invocations it makes. The two `task.Run`
outcomes are oracles (`none` = nil error). The Go line
`refreshErr, _ := refreshGameData(...)` binds the FIRST return value —
the body slice — to `refreshErr` and discards the error return; the
subsequent `if refreshErr != nil` therefore tests the body for nil-ness,
which is transcribed here exactly. Every `return` in the source returns
`nil`. -/
def runTaskWithRetry (run1 : Option GoError) (env : RefreshEnv)
    (game apiKey : String) (telegram : TelegramData) (proxyConfig : Proxy)
    (run2 : Option GoError) : Option GoError × Nat :=
  match run1 with
  | none => (none, 1)
  | some _ =>
    let refreshErr : GoBytes :=
      (refreshGameData env game apiKey telegram proxyConfig).fst
    match refreshErr with
    | some _ => (none, 1)
    | none =>
      match run2 with
      | some _ => (none, 2)
      | none => (none, 2)

/-- The `tasks.Handler` interface as a Task sees it: `Post` and
`GetBaseURL` (the `GetAccounts` member is unused by `Run`). `Post` is the
oracle for `GameHandler.Post`, which returns the response body bytes or
an error. -/
structure Handler where
  post : String → String → Except GoError String
  baseURL : String

/-- `OneTimeTask.Run` (part_001 lines 22-35): marshal the payload (oracle
`marshal`), POST it to `handler.GetBaseURL()`, succeed unconditionally on
a non-error POST; the response value is only printed, never inspected. -/
def OneTimeTaskRun (name telegramId : String)
    (marshal : Except GoError String) (handler : Handler) : Option GoError :=
  match marshal with
  | .error err =>
    some ("failed to marshal payload for one-time task '" ++ name ++ "': " ++ err)
  | .ok payloadBytes =>
    match handler.post handler.baseURL payloadBytes with
    | .error err =>
      some ("failed to execute one-time task '" ++ name ++ "' for account "
        ++ telegramId ++ ": " ++ err)
    | .ok _response => none

/-- `RecurrentTask.Run` (part_000 lines 301-314): identical control flow to
`OneTimeTaskRun`, with the recurrent-task error messages. -/
def RecurrentTaskRun (name telegramId : String)
    (marshal : Except GoError String) (handler : Handler) : Option GoError :=
  match marshal with
  | .error err =>
    some ("failed to marshal payload for recurrent task '" ++ name ++ "': " ++ err)
  | .ok payloadBytes =>
    match handler.post handler.baseURL payloadBytes with
    | .error err =>
      some ("failed to execute recurrent task '" ++ name ++ "' for account "
        ++ telegramId ++ ": " ++ err)
    | .ok _response => none

/-- A task as the orchestrator's `switch` dispatches on it: a
`*tasks.OneTimeTask` or a `*tasks.RecurrentTask` with its interval. -/
inductive TaskKind where
  | oneTime (name : String) : TaskKind
  | recurrent (name : String) (intervalNanos : Int) : TaskKind
deriving DecidableEq, Repr

/-- `handler.GameHandler` (part_000 lines 76-85): the fields mutated or
read by the embedded operations (the mutex serializes mutation and is
elided; each operation is the critical section it protects). -/
structure GameHandler where
  GameName : String
  BaseURL : String
  Proxy : Proxy
  APIKey : String
  Accounts : List Account
  Tasks : List TaskKind
deriving DecidableEq, Repr

/-- `GameHandler.AddTask` (part_000 lines 141-145): lock, append the task
to `Tasks`, unlock. -/
def AddTask (handler : GameHandler) (task : TaskKind) : GameHandler :=
  { handler with Tasks := handler.Tasks ++ [task] }

/-- `GameHandler.SetBaseURL` (part_000 lines 125-127). -/
def SetBaseURL (handler : GameHandler) (url : String) : GameHandler :=
  { handler with BaseURL := url }

/-- `GameHandler.GetBaseURL` (part_000 lines 106-108). -/
def GetBaseURL (handler : GameHandler) : String :=
  handler.BaseURL

/-- `GameHandler.GetAccounts` (part_000 lines 111-113). -/
def GetAccounts (handler : GameHandler) : List Account :=
  handler.Accounts

/-- How one account's goroutine in `RunTasks` ends: it either reaches the
end of the task list (`completes`, with the tasks it executed in order),
or it enters a loop it can never leave (`blockedForever`, with the tasks
executed before the block and the task whose loop blocks it). -/
inductive AccountRun where
  | completes (executed : List TaskKind) : AccountRun
  | blockedForever (executed : List TaskKind) (blocking : TaskKind) : AccountRun
deriving DecidableEq, Repr

/-- The body of one account's goroutine in `RunTasks` (part_000 lines
166-189): iterate the task list in order; a one-time task runs
`runTaskWithRetry` synchronously and the loop proceeds; a recurrent task
enters `for { select { case <-ticker.C: ... } }` INLINE — the source has
no `go` statement and the loop has no break or return, so control never
reaches the tasks after it. -/
def runAccountTasks : List TaskKind → AccountRun
  | [] => .completes []
  | .oneTime name :: rest =>
    match runAccountTasks rest with
    | .completes executed => .completes (.oneTime name :: executed)
    | .blockedForever executed blocking =>
      .blockedForever (.oneTime name :: executed) blocking
  | .recurrent name interval :: _rest =>
    .blockedForever [] (.recurrent name interval)

/-- Whether one account's goroutine reaches `wg.Done()`. -/
def accountUnitCompletes (taskList : List TaskKind) : Bool :=
  match runAccountTasks taskList with
  | .completes _ => true
  | .blockedForever _ _ => false

/-- Whether `RunTasks` (part_000 lines 162-192) returns: `wg.Wait()`
returns exactly when every account's goroutine reaches its deferred
`wg.Done()`. -/
def RunTasksReturns (accounts : List Account) (taskList : List TaskKind) : Bool :=
  accounts.all fun _account => accountUnitCompletes taskList

/-! Concrete sample data used by closed evaluation theorems and witnesses. -/

/-- A sample telegram session record. -/
def sampleTelegram : TelegramData :=
  { TdataStringSession := "sess", AppId := "1", AppHash := "h", TelegramId := "42" }

/-- A sample account. -/
def sampleAccount : Account := { GameData := "gd", Telegram := sampleTelegram }

/-- A sample proxy config with no address. -/
def sampleProxy : Proxy :=
  { Ip := "", Port := 0, Username := "", Password := "", SocksType := 0, Timeout := 0 }

/-- A refresh environment in which the refresh API call succeeds. -/
def refreshEnvOk : RefreshEnv :=
  { marshal := fun _ => .ok "json-body"
    post := fun _ _ => .ok { StatusCode := 200, Body := "refreshed" }
    readAll := fun resp => .ok resp.Body }

/-- A refresh environment in which the refresh API call fails at the POST. -/
def refreshEnvDown : RefreshEnv :=
  { marshal := fun _ => .ok "json-body"
    post := fun _ _ => .error "refresh endpoint unreachable"
    readAll := fun resp => .ok resp.Body }

/-- Helper: folding `AddTask` over a list of tasks grows `Tasks` by the
length of that list. -/
theorem foldl_AddTask_length (newTasks : List TaskKind) (handler : GameHandler) :
    (newTasks.foldl AddTask handler).Tasks.length
      = handler.Tasks.length + newTasks.length := by
  induction newTasks generalizing handler with
  | nil => rfl
  | cons task rest ih =>
    simp [List.foldl_cons, ih, AddTask]
    omega

/-- C1: the claim says a failed first Run followed by a successful Refresh
yields exactly two Run invocations, and a failed Refresh yields exactly
one. The code does the opposite: `refreshErr, _ := refreshGameData(...)`
binds the body slice and discards the error, so a successful refresh
(non-nil body) returns before the retry (one invocation) and a failed
refresh (nil body) falls through to the retry (two invocations). This
theorem evaluates `runTaskWithRetry` at both failing inputs. -/
theorem runTaskWithRetry_retry_inverted :
    (runTaskWithRetry (some "first run failed") refreshEnvOk "game" "key"
      sampleTelegram sampleProxy none).snd = 1
    ∧ (runTaskWithRetry (some "first run failed") refreshEnvDown "game" "key"
      sampleTelegram sampleProxy none).snd = 2 := by
  exact ⟨rfl, rfl⟩

/-- C2: the claim says the Recurrent tick loop is spawned as its own
concurrent activity, so later tasks still run and `RunTasks` returns. In
the source the `for { select }` loop executes inline in the account's
goroutine with no `go` statement and no exit, so with task list
[Recurrent r, OneTime o] the account blocks inside r having executed
nothing, o never runs, and `RunTasks` never returns. -/
theorem runTasks_blocks_on_inline_recurrent :
    runAccountTasks [.recurrent "r" 60, .oneTime "o"]
      = .blockedForever [] (.recurrent "r" 60)
    ∧ RunTasksReturns [sampleAccount] [.recurrent "r" 60, .oneTime "o"] = false := by
  exact ⟨rfl, rfl⟩

/-- C3: whichever of the initial Run, the Refresh, and the retried Run
fail, `runTaskWithRetry` returns a nil error: every return statement in
the source returns `nil`, so no task-execution failure propagates to
`RunTasks`. -/
theorem runTaskWithRetry_never_errors (run1 : Option GoError) (env : RefreshEnv)
    (game apiKey : String) (telegram : TelegramData) (proxyConfig : Proxy)
    (run2 : Option GoError) :
    (runTaskWithRetry run1 env game apiKey telegram proxyConfig run2).fst = none := by
  cases run1 with
  | none => rfl
  | some e =>
    simp only [runTaskWithRetry]
    cases (refreshGameData env game apiKey telegram proxyConfig).fst with
    | some body => rfl
    | none =>
      cases run2 with
      | some e2 => rfl
      | none => rfl

/-- C4: a response with status in [200, 300) comes back from `Post` and
`Get` without error; a response with any other status becomes an error
whose message is exactly the response body text. -/
theorem transport_status_error_mapping (url : String) (body : GoBytes)
    (resp : Response) :
    (200 ≤ resp.StatusCode ∧ resp.StatusCode < 300 →
      Post url body (.response resp) = .ok resp
      ∧ Get url (.response resp) = .ok resp)
    ∧ (resp.StatusCode < 200 ∨ 300 ≤ resp.StatusCode →
      Post url body (.response resp) = .error resp.Body
      ∧ Get url (.response resp) = .error resp.Body) := by
  constructor
  · intro h
    have hc : (resp.StatusCode < 200 || resp.StatusCode >= 300) = false := by
      simp only [Bool.or_eq_false_iff, decide_eq_false_iff_not, not_lt, not_le]
      omega
    constructor <;> simp [Post, Get, DoRequest, hc]
  · intro h
    have hc : (resp.StatusCode < 200 || resp.StatusCode >= 300) = true := by
      simp only [Bool.or_eq_true, decide_eq_true_eq]
      omega
    constructor <;> simp [Post, Get, DoRequest, hc]

/-- Closed witness for the C4 theorem at status 204 (success path) and
status 404 with body "not found" (error path). -/
theorem transport_status_error_mapping_witness :
    Post "http://example" (some "payload")
      (.response { StatusCode := 204, Body := "" })
      = .ok { StatusCode := 204, Body := "" }
    ∧ Get "http://example"
      (.response { StatusCode := 404, Body := "not found" })
      = .error "not found" :=
  ⟨((transport_status_error_mapping "http://example" (some "payload")
      { StatusCode := 204, Body := "" }).1 (by constructor <;> decide)).1,
   ((transport_status_error_mapping "http://example" (some "payload")
      { StatusCode := 404, Body := "not found" }).2 (Or.inr (by decide))).2⟩

/-- C5: with a usable proxy address (non-empty ip and positive port),
SOCKS version 4 fails with the unsupported-proxy error, any version other
than 4 and 5 fails with the invalid-SOCKS-type error, and version 5
succeeds — with the credentials attached exactly when username and
password are both non-empty, so with or without credentials. -/
theorem newHTTPClient_socks_validation (cfg : Proxy)
    (hip : cfg.Ip ≠ "") (hport : 0 < cfg.Port) :
    (cfg.SocksType = 4 →
      NewHTTPClient cfg = .error "SOCKS4 proxy is not supported in this implementation")
    ∧ (cfg.SocksType ≠ 4 → cfg.SocksType ≠ 5 →
      NewHTTPClient cfg = .error ("invalid SOCKS type: " ++ toString cfg.SocksType))
    ∧ (cfg.SocksType = 5 →
      NewHTTPClient cfg = .ok
        { transport := .proxied
            { address := cfg.Ip ++ ":" ++ toString cfg.Port,
              auth :=
                if cfg.Username != "" && cfg.Password != "" then
                  some { User := cfg.Username, Password := cfg.Password }
                else none },
          timeoutSeconds := if cfg.Timeout > 0 then cfg.Timeout else 10 }) := by
  have hguard : (cfg.Ip != "" && decide (cfg.Port > 0)) = true := by
    simp [bne_iff_ne, hip, hport]
  refine ⟨fun h4 => ?_, fun hn4 hn5 => ?_, fun h5 => ?_⟩
  · simp [NewHTTPClient, hguard, h4]
  · simp [NewHTTPClient, hguard, hn4, hn5]
  · by_cases hcred : (cfg.Username != "" && cfg.Password != "") = true
    · simp [NewHTTPClient, hguard, h5, hcred, SOCKS5]
    · simp [NewHTTPClient, hguard, h5, hcred, SOCKS5]

/-- Closed witness for the C5 theorem: SOCKS4 rejected, SOCKS6 invalid,
SOCKS5 accepted without credentials at the address 1.2.3.4:1080. -/
theorem newHTTPClient_socks_validation_witness :
    NewHTTPClient
      { Ip := "1.2.3.4", Port := 1080, Username := "", Password := "",
        SocksType := 4, Timeout := 0 }
      = .error "SOCKS4 proxy is not supported in this implementation"
    ∧ NewHTTPClient
        { Ip := "1.2.3.4", Port := 1080, Username := "", Password := "",
          SocksType := 6, Timeout := 0 }
      = .error ("invalid SOCKS type: " ++ toString (6 : Int))
    ∧ NewHTTPClient
        { Ip := "1.2.3.4", Port := 1080, Username := "", Password := "",
          SocksType := 5, Timeout := 0 }
      = .ok
        { transport := .proxied
            { address := "1.2.3.4" ++ ":" ++ toString (1080 : Int), auth := none },
          timeoutSeconds := 10 } := by
  refine ⟨(newHTTPClient_socks_validation _ (by decide) (by decide)).1 rfl,
          (newHTTPClient_socks_validation _ (by decide) (by decide)).2.1
            (by decide) (by decide), ?_⟩
  have h := (newHTTPClient_socks_validation
    { Ip := "1.2.3.4", Port := 1080, Username := "", Password := "",
              SocksType := 5, Timeout := 0 } (by decide) (by decide)).2.2 rfl
  simpa using h

/-- C6: a Task's Run succeeds (nil error) exactly when its payload
serialization and the POST to `handler.GetBaseURL()` both succeed; any
response value yields success, so the body is never inspected for
application-level failure — for both the one-time and the recurrent
variant. -/
theorem taskRun_success_iff_marshal_and_post_ok (name telegramId : String)
    (marshal : Except GoError String) (handler : Handler) :
    (OneTimeTaskRun name telegramId marshal handler = none ↔
      ∃ payloadBytes, marshal = .ok payloadBytes ∧
        ∃ response, handler.post handler.baseURL payloadBytes = .ok response)
    ∧ (RecurrentTaskRun name telegramId marshal handler = none ↔
      ∃ payloadBytes, marshal = .ok payloadBytes ∧
        ∃ response, handler.post handler.baseURL payloadBytes = .ok response) := by
  constructor
  · cases marshal with
    | error e => simp [OneTimeTaskRun]
    | ok payloadBytes =>
      cases hp : handler.post handler.baseURL payloadBytes with
      | error e => simp [OneTimeTaskRun, hp]
      | ok response => simp [OneTimeTaskRun, hp]
  · cases marshal with
    | error e => simp [RecurrentTaskRun]
    | ok payloadBytes =>
      cases hp : handler.post handler.baseURL payloadBytes with
      | error e => simp [RecurrentTaskRun, hp]
      | ok response => simp [RecurrentTaskRun, hp]

/-- C7: a proxy config with an empty ip yields a direct (non-proxied)
client, whatever the other fields hold; the error branches are never
reached. -/
theorem newHTTPClient_direct_when_no_address (cfg : Proxy) (h : cfg.Ip = "") :
    NewHTTPClient cfg = .ok
      { transport := .direct,
        timeoutSeconds := if cfg.Timeout > 0 then cfg.Timeout else 10 } := by
  simp [NewHTTPClient, h]

/-- Closed witness for the C7 theorem at the config with empty ip and port
zero: the client is direct with the default 10 second timeout. -/
theorem newHTTPClient_direct_when_no_address_witness :
    NewHTTPClient
      { Ip := "", Port := 0, Username := "", Password := "",
        SocksType := 0, Timeout := 0 }
      = .ok { transport := .direct, timeoutSeconds := 10 } := by
  have h := newHTTPClient_direct_when_no_address
    { Ip := "", Port := 0, Username := "", Password := "",
              SocksType := 0, Timeout := 0 } rfl
  simpa using h

/-- C8: `AddTask` appends exactly the given task at the end of the task
list, leaving every previously stored task and every other handler field
unchanged; folding it over M new tasks grows the list by exactly M; and
`SetBaseURL`, the only other mutator, leaves the task list untouched. -/
theorem addTask_appends_and_frames (handler : GameHandler) (task : TaskKind)
    (newTasks : List TaskKind) (url : String) :
    (AddTask handler task).Tasks = handler.Tasks ++ [task]
    ∧ (AddTask handler task).Tasks.length = handler.Tasks.length + 1
    ∧ (AddTask handler task).GameName = handler.GameName
    ∧ (AddTask handler task).BaseURL = handler.BaseURL
    ∧ (AddTask handler task).Proxy = handler.Proxy
    ∧ (AddTask handler task).APIKey = handler.APIKey
    ∧ (AddTask handler task).Accounts = handler.Accounts
    ∧ (newTasks.foldl AddTask handler).Tasks.length
        = handler.Tasks.length + newTasks.length
    ∧ (SetBaseURL handler url).Tasks = handler.Tasks := by
  refine ⟨rfl, by simp [AddTask], rfl, rfl, rfl, rfl, rfl,
    foldl_AddTask_length newTasks handler, rfl⟩

/-- C9: a proxy config with a non-empty ip but a non-positive port skips
the proxy branch entirely — the SOCKS-type validation is never reached —
and yields a direct client, whatever the SOCKS type. -/
theorem newHTTPClient_direct_when_port_nonpositive (cfg : Proxy)
    (_hip : cfg.Ip ≠ "") (hport : cfg.Port ≤ 0) :
    NewHTTPClient cfg = .ok
      { transport := .direct,
        timeoutSeconds := if cfg.Timeout > 0 then cfg.Timeout else 10 } := by
  have hguard : (cfg.Ip != "" && decide (cfg.Port > 0)) = false := by
    simp only [Bool.and_eq_false_iff, decide_eq_false_iff_not, not_lt]
    exact Or.inr hport
  simp [NewHTTPClient, hguard]

/-- Closed witness for the C9 theorem at ip 1.2.3.4, port 0, SOCKS type 4:
construction succeeds with a direct client even though type 4 would be
rejected on the proxy path. -/
theorem newHTTPClient_direct_when_port_nonpositive_witness :
    NewHTTPClient
      { Ip := "1.2.3.4", Port := 0, Username := "", Password := "",
        SocksType := 4, Timeout := 0 }
      = .ok { transport := .direct, timeoutSeconds := 10 } := by
  have h := newHTTPClient_direct_when_port_nonpositive
    { Ip := "1.2.3.4", Port := 0, Username := "", Password := "",
              SocksType := 4, Timeout := 0 } (by decide) (by decide)
  simpa using h

/-- C10: the refresh POST goes to the hard-coded url
http://34.95.182.203:1337/api/telegram/game-data — the string the source
builds from its local `nexusApiBaseURL` is that constant, and the result
of `refreshGameData` depends on the post oracle only through its behavior
at that one url (and on nothing else but the marshalled body contents);
the function takes no base-url argument at all. -/
theorem refreshGameData_fixed_target (env env2 : RefreshEnv)
    (hm : env2.marshal = env.marshal) (hr : env2.readAll = env.readAll)
    (hp : ∀ body, env2.post "http://34.95.182.203:1337/api/telegram/game-data" body
                = env.post "http://34.95.182.203:1337/api/telegram/game-data" body)
    (game apiKey : String) (telegram : TelegramData) (proxyConfig : Proxy) :
    nexusApiBaseURL ++ "/telegram/game-data"
      = "http://34.95.182.203:1337/api/telegram/game-data"
    ∧ refreshGameData env2 game apiKey telegram proxyConfig
      = refreshGameData env game apiKey telegram proxyConfig := by
  refine ⟨rfl, ?_⟩
  simp only [refreshGameData, hm, hr]
  cases env.marshal
      { Game := game, Telegram := telegram, APIKey := apiKey, Proxy := proxyConfig } with
  | error e => rfl
  | ok jsonData =>
    have hurl : nexusApiBaseURL ++ "/telegram/game-data"
        = "http://34.95.182.203:1337/api/telegram/game-data" := rfl
    simp only [hurl, hp jsonData]

/-- Closed witness for the C10 theorem: two environments that agree at the
fixed refresh url produce equal outcomes, exercised at a concrete call. -/
theorem refreshGameData_fixed_target_witness :
    nexusApiBaseURL ++ "/telegram/game-data"
      = "http://34.95.182.203:1337/api/telegram/game-data"
    ∧ refreshGameData refreshEnvOk "game" "key" sampleTelegram sampleProxy
      = refreshGameData refreshEnvOk "game" "key" sampleTelegram sampleProxy :=
  refreshGameData_fixed_target refreshEnvOk refreshEnvOk rfl rfl
    (fun _ => rfl) "game" "key" sampleTelegram sampleProxy

end NexusSDK
